import Mathlib

/-!
Verification of the request-observability middleware of the two Express
services `api-service-1` and `api-service-2` (src/api-service-1/index.js,
src/api-service-2/index.js), against the repository specification.

The JavaScript source is shallowly embedded:

* `Math.random()` in V8 returns a double of the form k / 2^53 with
  0 ≤ k < 2^53; the random source is therefore modelled by the natural
  number k (the mantissa numerator), and the real value it denotes is
  k / 2^53.
* `Date.now()` and `new Date().toISOString()` readings are modelled by a
  clock trace `clock : Nat → Int` read in program order; the ISO-8601
  rendering of a reading is order-isomorphic to the reading itself, so a
  timestamp field of a log event is modelled by the integer reading.
* A structured `console.log(JSON.stringify({...}))` call is modelled as a
  `LogEvent` value appended to the trace of emitted events; fields absent
  from a particular call site are `none`.
* `res.json(obj)` is modelled by the association list of the fields
  of the object; `res.status(n)` by the numeric status code.
-/

/-- Number of doubles producible by Math.random: it returns k / 2^53. -/
def pow53 : Nat := 2 ^ 53

/-- Digit character of JavaScript Number.prototype.toString(36):
digits 0-9 then lowercase a-z. -/
def base36Char (d : Nat) : Char :=
  if d < 10 then Char.ofNat (48 + d) else Char.ofNat (87 + d)

/-- Fraction digits of toString(36) for the value k / 2^53 (0 < k < 2^53):
the exact terminating base-36 expansion, emitted most significant first.
Every double in [0,1) is a dyadic rational, and 2 divides 36, so the
expansion terminates within 27 digits; fuel 64 is ample. -/
def base36FracDigits : Nat → Nat → List Char
  | 0, _ => []
  | _ + 1, 0 => []
  | fuel + 1, k + 1 =>
      base36Char ((k + 1) * 36 / pow53) ::
        base36FracDigits fuel ((k + 1) * 36 % pow53)

/-- JavaScript (k / 2^53).toString(36): "0" for the double +0
(ECMA-262 Number::toString), and "0." followed by the fraction digits
otherwise. -/
def jsToString36 (k : Nat) : String :=
  if k = 0 then "0" else String.mk ('0' :: '.' :: base36FracDigits 64 k)

/-- JavaScript String.prototype.substring(2): drop the first two
characters; a string shorter than two characters yields "". -/
def jsSubstring2 (s : String) : String :=
  String.mk (s.data.drop 2)

/-- The generated correlation identifier of both middlewares
(src/api-service-1/index.js line 22, src/api-service-2/index.js line 22):
Math.random().toString(36).substring(2), as a function of the mantissa
numerator k of the random draw. -/
def generatedId (k : Nat) : String :=
  jsSubstring2 (jsToString36 k)

/-- JavaScript a || b where a is the (possibly missing) header value:
undefined and the empty string are falsy, any other string is truthy. -/
def jsOr (a : Option String) (b : String) : String :=
  match a with
  | none => b
  | some s => if s = "" then b else s

/-- The correlation identifier both middlewares assign to a request:
req.get of X-Request-ID (none when the header is absent) short-circuited
with the generated identifier (line 22 of each index.js). -/
def requestIdOf (header : Option String) (k : Nat) : String :=
  jsOr header (generatedId k)

/-- An inbound HTTP request as the middleware observes it. -/
structure Request where
  method : String
  url : String
  ip : String
  userAgent : Option String
  xRequestId : Option String
deriving Repr, DecidableEq

/-- A structured log line, one JSON object written to the console.
Fields that a given call site does not include are none; `timestamp`
is the clock reading behind the ISO string. -/
structure LogEvent where
  level : String
  message : String
  method : Option String := none
  url : Option String := none
  ip : Option String := none
  userAgent : Option (Option String) := none
  statusCode : Option Nat := none
  duration : Option Int := none
  requestId : Option String := none
  route : Option String := none
  service : String := ""
  timestamp : Int := 0
deriving Repr, DecidableEq

/-- Outcome of the downstream handler for one request: it either finalizes
the response itself with a status and body chunk, or raises an unhandled
fault, in which case the Express runtime synthesizes a 500 response and
still finalizes it (so res.end is still called and the finish event still
fires). -/
inductive HandlerOutcome where
  | normal (status : Nat) (chunk : Option String)
  | fault
deriving Repr, DecidableEq

/-- Status code of the response the transport ultimately carries. -/
def finalStatus : HandlerOutcome → Nat
  | .normal s _ => s
  | .fault => 500

/-- Start log event of the api-service-1 logging middleware
(src/api-service-1/index.js lines 24-34). -/
def startEvent1 (req : Request) (rid : String) (ts : Int) : LogEvent :=
  { level := "info"
    message := "Request started: " ++ req.method ++ " " ++ req.url
    method := some req.method
    url := some req.url
    ip := some req.ip
    userAgent := some req.userAgent
    requestId := some rid
    service := "api-service-1"
    timestamp := ts }

/-- Completion log event of the api-service-1 middleware, emitted by the
res.end override (src/api-service-1/index.js lines 40-50). -/
def completionEvent1 (req : Request) (rid : String) (status : Nat)
    (dur : Int) (ts : Int) : LogEvent :=
  { level := "info"
    message := "Request completed: " ++ req.method ++ " " ++ req.url
    method := some req.method
    url := some req.url
    statusCode := some status
    duration := some dur
    requestId := some rid
    service := "api-service-1"
    timestamp := ts }

/-- Start log event of the api-service-2 logging middleware
(src/api-service-2/index.js lines 24-34): identical to that of api-service-1
except for the service field. -/
def startEvent2 (req : Request) (rid : String) (ts : Int) : LogEvent :=
  { level := "info"
    message := "Request started: " ++ req.method ++ " " ++ req.url
    method := some req.method
    url := some req.url
    ip := some req.ip
    userAgent := some req.userAgent
    requestId := some rid
    service := "api-service-2"
    timestamp := ts }

/-- Completion log event of the api-service-2 middleware, emitted by the
finish listener (src/api-service-2/index.js lines 38-47). Unlike
the completion event of api-service-1, it contains no requestId field. -/
def completionEvent2 (req : Request) (status : Nat)
    (dur : Int) (ts : Int) : LogEvent :=
  { level := "info"
    message := "Request completed: " ++ req.method ++ " " ++ req.url
    method := some req.method
    url := some req.url
    statusCode := some status
    duration := some dur
    service := "api-service-2"
    timestamp := ts }

/-- One full request/response cycle through the api-service-1 middleware
(src/api-service-1/index.js lines 20-54). Clock reads in program order:
clock 0 is Date.now() for start, clock 1 the timestamp of the start event,
clock 2 Date.now() inside the res.end override for the duration, clock 3
the timestamp of the completion event. The Express runtime calls res.end
exactly once per response, also when the handler faulted and a 500 was
synthesized, so the overridden end — and with it the completion event —
fires exactly once. Returns the emitted middleware events in order,
paired with the final status code. -/
def processRequest1 (req : Request) (k : Nat) (clock : Nat → Int)
    (out : HandlerOutcome) : List LogEvent × Nat :=
  let rid := requestIdOf req.xRequestId k
  let status := finalStatus out
  ([startEvent1 req rid (clock 1),
    completionEvent1 req rid status (clock 2 - clock 0) (clock 3)],
   status)

/-- One full request/response cycle through the api-service-2 middleware
(src/api-service-2/index.js lines 20-51). Same clock-read order as
api-service-1; the completion hook here is the res finish event, which
the runtime fires exactly once when the response has been handed to the
transport, also for synthesized error responses. -/
def processRequest2 (req : Request) (k : Nat) (clock : Nat → Int)
    (out : HandlerOutcome) : List LogEvent × Nat :=
  let rid := requestIdOf req.xRequestId k
  let status := finalStatus out
  ([startEvent2 req rid (clock 1),
    completionEvent2 req status (clock 2 - clock 0) (clock 3)],
   status)

/-- A middleware start event: carries neither a status code nor a
duration (both are only known at completion). -/
def isStartEvent (e : LogEvent) : Bool :=
  e.statusCode.isNone && e.duration.isNone

/-- A middleware completion event: carries a status code and a duration. -/
def isCompletionEvent (e : LogEvent) : Bool :=
  e.statusCode.isSome && e.duration.isSome

/-- One observation fed to the http_request_duration_seconds histogram:
httpRequestDuration.labels(method, route, statusCode).observe(seconds). -/
structure Observation where
  method : String
  route : String
  statusCode : String
  seconds : Rat
deriving Repr, DecidableEq

/-- Result of the awaited axios.get call to the peer service: a resolved
response with its status and data, or a rejection (connection failure or
non-2xx status), which the catch block receives. -/
inductive AxiosResult where
  | ok (status : Nat) (data : String)
  | fail (msg : String) (code : Option String)
deriving Repr, DecidableEq

/-- The /test-service-2 handler of api-service-1
(src/api-service-1/index.js lines 101-149), reduced to its metrics and
response behaviour. clock 0 is Date.now() before the axios call, clock 1
Date.now() after it resolves. On success it records exactly one histogram
observation with labels ("GET", "/test-service-2", "200") and the duration
divided by 1000, then responds 200 via res.json; in the catch block it
records nothing and responds 500. Returns (observations, status, body). -/
def testService2Handler (r : AxiosResult) (clock : Nat → Int) :
    List Observation × Nat × List (String × String) :=
  match r with
  | .ok _ data =>
      let duration : Rat := ((clock 1 - clock 0 : Int) : Rat) / 1000
      ([{ method := "GET", route := "/test-service-2", statusCode := "200",
          seconds := duration }],
       200,
       [("message", "Called API Service 2"), ("data", data)])
  | .fail _ _ =>
      ([], 500, [("error", "Failed to call API Service 2")])

/-- The /test-service-1 handler of api-service-2
(src/api-service-2/index.js lines 116-164), same shape as
testService2Handler with route label "/test-service-1". -/
def testService1Handler (r : AxiosResult) (clock : Nat → Int) :
    List Observation × Nat × List (String × String) :=
  match r with
  | .ok _ data =>
      let duration : Rat := ((clock 1 - clock 0 : Int) : Rat) / 1000
      ([{ method := "GET", route := "/test-service-1", statusCode := "200",
          seconds := duration }],
       200,
       [("message", "Called API Service 1"), ("data", data)])
  | .fail _ _ =>
      ([], 500, [("error", "Failed to call API Service 1")])

/-- The delays array of the /heavy-task handler
(src/api-service-1/index.js line 58). -/
def delays : List Nat := [100, 200, 500, 1000, 3000]

/-- Math.floor(Math.random() * delays.length) for the random draw
k / 2^53: floor of 5k / 2^53, i.e. natural division. -/
def heavyTaskIndex (k : Nat) : Nat :=
  k * 5 / pow53

/-- delays[index] with JavaScript semantics: undefined (none) when the
index is out of range (src/api-service-1/index.js line 59). -/
def heavyTaskDelay (k : Nat) : Option Nat :=
  delays.get? (heavyTaskIndex k)

/-- The 0.3 comparison of the /random-fail handler
(src/api-service-2/index.js line 92). Math.random() yields k / 2^53 and
the double literal 0.3 is 5404319552844595 / 2^54; for numerators over
2^53 the comparison k / 2^53 < 5404319552844595 / 2^54 — that is,
2k < 5404319552844595, i.e. k ≤ 2702159776422297 — coincides exactly
with the rational comparison k / 2^53 < 3 / 10, i.e. 10k < 3 * 2^53,
so the handler is modelled with the latter. -/
def randomFailTriggers (k : Nat) : Bool :=
  10 * k < 3 * pow53

/-- The /random-fail handler of api-service-2
(src/api-service-2/index.js lines 83-113): an entry log, then either an
error log plus res.status(500).json of an error body, or an info log plus
res.json of a success body. clock 0 and clock 1 are the two
new Date().toISOString() readings. Returns (events, status, body). -/
def randomFailHandler (k : Nat) (clock : Nat → Int) :
    List LogEvent × Nat × List (String × String) :=
  let entry : LogEvent :=
    { level := "info", message := "Random fail endpoint called"
      route := some "/random-fail", service := "api-service-2"
      timestamp := clock 0 }
  if randomFailTriggers k then
    ([entry,
      { level := "error", message := "Random failure occurred"
        route := some "/random-fail", statusCode := some 500
        service := "api-service-2", timestamp := clock 1 }],
     500, [("error", "Random failure occurred")])
  else
    ([entry,
      { level := "info", message := "Random fail endpoint succeeded"
        route := some "/random-fail", statusCode := some 200
        service := "api-service-2", timestamp := clock 1 }],
     200, [("message", "Success")])

/-- The res.end override installed by the api-service-1 middleware
(src/api-service-1/index.js lines 37-52), parameterized by the original
end implementation (which receives the status code of the response as part of
its `this` binding, plus the chunk and encoding arguments). The override
computes the duration, emits the completion event, then returns
originalEnd.call(this, chunk, encoding) — same receiver, same arguments,
return value passed through. -/
def wrappedEnd {α : Type} (originalEnd : Nat → Option String → Option String → α)
    (req : Request) (rid : String) (statusCode : Nat) (start : Int)
    (clock : Nat → Int) (chunk encoding : Option String) : LogEvent × α :=
  (completionEvent1 req rid statusCode (clock 0 - start) (clock 1),
   originalEnd statusCode chunk encoding)

/-- Helper: with fuel and numerator both positive, the base-36 expansion
emits at least one digit. -/
theorem base36FracDigits_ne_nil (fuel k : Nat) (hf : 0 < fuel) (hk : 0 < k) :
    base36FracDigits fuel k ≠ [] := by
  obtain ⟨f, rfl⟩ : ∃ f, fuel = f + 1 := ⟨fuel - 1, by omega⟩
  obtain ⟨k', rfl⟩ : ∃ k', k = k' + 1 := ⟨k - 1, by omega⟩
  simp [base36FracDigits]

/-- Claim C6 (amended): for every strictly positive value of the random
source, the generated correlation identifier is a non-empty string; the
draw 0 is excluded, since (0).toString(36) is "0" and substring(2) of it
is empty. -/
theorem generatedId_nonempty (k : Nat) (h0 : 0 < k) (h1 : k < pow53) :
    generatedId k ≠ "" := by
  have hd := base36FracDigits_ne_nil 64 k (by omega) h0
  have hk : ¬ k = 0 := by omega
  unfold generatedId jsToString36 jsSubstring2
  simp only [hk, if_false]
  intro hcontra
  exact hd (congrArg String.data hcontra)

/-- Witness for generatedId_nonempty at the draw 2^52 (the double 0.5,
whose base-36 rendering is "0.i"). -/
theorem generatedId_nonempty_spec :
    0 < 2 ^ 52 ∧ 2 ^ 52 < pow53 ∧ generatedId (2 ^ 52) ≠ "" :=
  ⟨by decide, by decide, generatedId_nonempty (2 ^ 52) (by decide) (by decide)⟩

/-- Claim C6 (counterexample): at the random draw exactly 0 — a value
Math.random can return — the generated identifier is the empty string,
and a headerless request is assigned the empty correlation identifier. -/
theorem generatedId_empty_at_zero :
    generatedId 0 = "" ∧ requestIdOf none 0 = "" := by
  exact ⟨rfl, rfl⟩

/-- Claim C7: the middleware reuses a present, non-empty X-Request-ID
header verbatim, and generates a fresh identifier when the header is
absent or empty; the selection is a total function (never throws). -/
theorem requestId_selection (h : String) (k : Nat) (hne : h ≠ "") :
    requestIdOf (some h) k = h ∧ requestIdOf none k = generatedId k ∧
    requestIdOf (some "") k = generatedId k := by
  refine ⟨?_, rfl, rfl⟩
  simp [requestIdOf, jsOr, hne]

/-- Witness for requestId_selection with header value "abc" and draw 7. -/
theorem requestId_selection_spec :
    ("abc" : String) ≠ "" ∧
    (requestIdOf (some "abc") 7 = "abc" ∧
     requestIdOf none 7 = generatedId 7 ∧
     requestIdOf (some "") 7 = generatedId 7) :=
  ⟨by decide, requestId_selection "abc" 7 (by decide)⟩

/-- Claim C9: for every random draw k / 2^53 in [0, 1), the index
floor(random * 5) is in range for the delays array, and the selected
delay is one of the five listed values — the indexing never yields
undefined. -/
theorem heavyTask_delay_safe (k : Nat) (hk : k < pow53) :
    heavyTaskIndex k < delays.length ∧
    ∃ d, heavyTaskDelay k = some d ∧ d ∈ delays := by
  have h5 : heavyTaskIndex k < 5 := by
    have h1 : k * 5 < pow53 * 5 := by omega
    exact Nat.div_lt_of_lt_mul h1
  refine ⟨h5, ?_⟩
  unfold heavyTaskDelay
  have hc : heavyTaskIndex k = 0 ∨ heavyTaskIndex k = 1 ∨ heavyTaskIndex k = 2 ∨
      heavyTaskIndex k = 3 ∨ heavyTaskIndex k = 4 := by omega
  rcases hc with h | h | h | h | h <;> rw [h] <;> exact ⟨_, rfl, by decide⟩

/-- Witness for heavyTask_delay_safe at the draw 0 (delay 100ms). -/
theorem heavyTask_delay_safe_spec :
    0 < pow53 ∧
    (heavyTaskIndex 0 < delays.length ∧
     ∃ d, heavyTaskDelay 0 = some d ∧ d ∈ delays) :=
  ⟨by decide, heavyTask_delay_safe 0 (by decide)⟩

/-- Claim C10: the /random-fail handler responds 500 with body
error: "Random failure occurred" exactly when its random draw is below
0.3 (for draws of the form k / 2^53 this is 10k < 3 * 2^53, which
coincides with the double comparison), responds 200 with body
message: "Success" otherwise, and in each case emits exactly one
corresponding branch log event. -/
theorem randomFail_behaviour (k : Nat) (clock : Nat → Int) :
    ((randomFailHandler k clock).2.1 = 500 ↔ 10 * k < 3 * pow53) ∧
    (10 * k < 3 * pow53 →
      (randomFailHandler k clock).2.2 = [("error", "Random failure occurred")] ∧
      ((randomFailHandler k clock).1.filter
        (fun e => e.message == "Random failure occurred")).length = 1) ∧
    (¬ 10 * k < 3 * pow53 →
      (randomFailHandler k clock).2.1 = 200 ∧
      (randomFailHandler k clock).2.2 = [("message", "Success")] ∧
      ((randomFailHandler k clock).1.filter
        (fun e => e.message == "Random fail endpoint succeeded")).length = 1) := by
  by_cases h : 10 * k < 3 * pow53 <;>
    simp [randomFailHandler, randomFailTriggers, h, List.filter]

/-- Claim C3 (amended): through the middleware of either service, every
request/response cycle emits exactly one start event and one completion
event, in that order, and the completion event carries the final status
for every handler outcome, including an unhandled fault turned into a
synthesized 500; the event timestamps come from new Date() wall clock
readings, so the completion timestamp is at least the start timestamp
whenever the wall clock does not step backwards between the two event
emissions. -/
theorem middleware_event_lifecycle (req : Request) (k : Nat)
    (clock : Nat → Int) (out : HandlerOutcome) (h13 : clock 1 ≤ clock 3) :
    ((processRequest1 req k clock out).1.map isStartEvent = [true, false] ∧
     (processRequest1 req k clock out).1.map isCompletionEvent = [false, true] ∧
     ((processRequest1 req k clock out).1.filter isStartEvent).length = 1 ∧
     ((processRequest1 req k clock out).1.filter isCompletionEvent).length = 1 ∧
     (processRequest1 req k clock out).1.map LogEvent.timestamp =
       [clock 1, clock 3] ∧
     (processRequest1 req k clock out).1.map LogEvent.statusCode =
       [none, some (finalStatus out)]) ∧
    ((processRequest2 req k clock out).1.map isStartEvent = [true, false] ∧
     (processRequest2 req k clock out).1.map isCompletionEvent = [false, true] ∧
     ((processRequest2 req k clock out).1.filter isStartEvent).length = 1 ∧
     ((processRequest2 req k clock out).1.filter isCompletionEvent).length = 1 ∧
     (processRequest2 req k clock out).1.map LogEvent.timestamp =
       [clock 1, clock 3] ∧
     (processRequest2 req k clock out).1.map LogEvent.statusCode =
       [none, some (finalStatus out)]) ∧
    clock 1 ≤ clock 3 := by
  exact ⟨⟨rfl, rfl, rfl, rfl, rfl, rfl⟩, ⟨rfl, rfl, rfl, rfl, rfl, rfl⟩, h13⟩

/-- Witness for middleware_event_lifecycle: a headerless GET / whose
handler faults, under the constant clock 0. -/
theorem middleware_event_lifecycle_spec :
    (0 : Int) ≤ 0 ∧
    (((processRequest1 ⟨"GET", "/", "127.0.0.1", none, none⟩ 0
        (fun _ => 0) .fault).1.map isStartEvent = [true, false] ∧
      (processRequest1 ⟨"GET", "/", "127.0.0.1", none, none⟩ 0
        (fun _ => 0) .fault).1.map isCompletionEvent = [false, true] ∧
      ((processRequest1 ⟨"GET", "/", "127.0.0.1", none, none⟩ 0
        (fun _ => 0) .fault).1.filter isStartEvent).length = 1 ∧
      ((processRequest1 ⟨"GET", "/", "127.0.0.1", none, none⟩ 0
        (fun _ => 0) .fault).1.filter isCompletionEvent).length = 1 ∧
      (processRequest1 ⟨"GET", "/", "127.0.0.1", none, none⟩ 0
        (fun _ => 0) .fault).1.map LogEvent.timestamp = [0, 0] ∧
      (processRequest1 ⟨"GET", "/", "127.0.0.1", none, none⟩ 0
        (fun _ => 0) .fault).1.map LogEvent.statusCode =
        [none, some (finalStatus .fault)]) ∧
     ((processRequest2 ⟨"GET", "/", "127.0.0.1", none, none⟩ 0
        (fun _ => 0) .fault).1.map isStartEvent = [true, false] ∧
      (processRequest2 ⟨"GET", "/", "127.0.0.1", none, none⟩ 0
        (fun _ => 0) .fault).1.map isCompletionEvent = [false, true] ∧
      ((processRequest2 ⟨"GET", "/", "127.0.0.1", none, none⟩ 0
        (fun _ => 0) .fault).1.filter isStartEvent).length = 1 ∧
      ((processRequest2 ⟨"GET", "/", "127.0.0.1", none, none⟩ 0
        (fun _ => 0) .fault).1.filter isCompletionEvent).length = 1 ∧
      (processRequest2 ⟨"GET", "/", "127.0.0.1", none, none⟩ 0
        (fun _ => 0) .fault).1.map LogEvent.timestamp = [0, 0] ∧
      (processRequest2 ⟨"GET", "/", "127.0.0.1", none, none⟩ 0
        (fun _ => 0) .fault).1.map LogEvent.statusCode =
        [none, some (finalStatus .fault)]) ∧
     (0 : Int) ≤ 0) :=
  ⟨le_refl 0,
   middleware_event_lifecycle ⟨"GET", "/", "127.0.0.1", none, none⟩ 0
     (fun _ => 0) .fault (le_refl 0)⟩

/-- Claim C3 (counterexample): the event timestamps come from new Date(),
a wall clock, not a monotonic one; if it steps backwards from 5 to 3
between the start event emission and the completion event emission, the
emitted timestamps are [5, 3] in both services, so the completion
timestamp is below the start timestamp, refuting the unconditional claim
that completion.timestamp is at least start.timestamp. -/
theorem completion_timestamp_below_start_on_backward_clock :
    (processRequest1 ⟨"GET", "/", "127.0.0.1", none, none⟩ 0
       (fun i => if i = 1 then 5 else 3) (.normal 200 none)).1.map
        LogEvent.timestamp = [5, 3] ∧
    (processRequest2 ⟨"GET", "/", "127.0.0.1", none, none⟩ 0
       (fun i => if i = 1 then 5 else 3) (.normal 200 none)).1.map
        LogEvent.timestamp = [5, 3] ∧
    (3 : Int) < 5 := by
  exact ⟨rfl, rfl, by norm_num⟩

/-- Claim C5 (amended): in both services, the durationMillis of the
completion event is exactly the difference of the two Date.now() wall
clock readings (taken at request start and at response finalization), and
it is non-negative whenever the wall clock does not step backwards
between the two readings; Date.now() is not a monotonic clock, so the
non-negativity is conditional. -/
theorem duration_measurement (req : Request) (k : Nat) (clock : Nat → Int)
    (out : HandlerOutcome) (h02 : clock 0 ≤ clock 2) :
    ((processRequest1 req k clock out).1.map LogEvent.duration =
       [none, some (clock 2 - clock 0)] ∧
     (processRequest2 req k clock out).1.map LogEvent.duration =
       [none, some (clock 2 - clock 0)]) ∧
    0 ≤ clock 2 - clock 0 := by
  exact ⟨⟨rfl, rfl⟩, by omega⟩

/-- Witness for duration_measurement under the clock reading i at read
index i (a strictly advancing clock). -/
theorem duration_measurement_spec :
    (0 : Int) ≤ 2 ∧
    (((processRequest1 ⟨"GET", "/", "127.0.0.1", none, none⟩ 0
        (fun i => (i : Int)) (.normal 200 none)).1.map LogEvent.duration =
        [none, some ((2 : Int) - 0)] ∧
      (processRequest2 ⟨"GET", "/", "127.0.0.1", none, none⟩ 0
        (fun i => (i : Int)) (.normal 200 none)).1.map LogEvent.duration =
        [none, some ((2 : Int) - 0)]) ∧
     (0 : Int) ≤ (2 : Int) - 0) :=
  ⟨by norm_num,
   duration_measurement ⟨"GET", "/", "127.0.0.1", none, none⟩ 0
     (fun i => (i : Int)) (.normal 200 none) (by norm_num)⟩

/-- Claim C5 (counterexample): Date.now() is a wall clock, not a
monotonic one; if it steps backwards from 5 to 3 between request start
and response finalization, the reported durationMillis is -2, refuting
the unconditional claim that durationMillis is always non-negative. -/
theorem duration_negative_on_backward_clock :
    (processRequest1 ⟨"GET", "/", "127.0.0.1", none, some "abc"⟩ 0
       (fun i => if i = 0 then 5 else 3) .fault).1.map LogEvent.duration =
      [none, some (-2)] ∧ (-2 : Int) < 0 := by
  exact ⟨rfl, by norm_num⟩

/-- Claim C4 (amended): the two middlewares emit identical start events
up to the service field, and identical completion events up to the
service field and the requestId field, which the completion
event of api-service-2 omits. (The response-lifecycle hooks also differ: api-service-1
overrides res.end, api-service-2 listens for the finish event.) -/
theorem middleware_events_agreement (req : Request) (rid : String)
    (status : Nat) (dur ts : Int) :
    startEvent2 req rid ts =
      { startEvent1 req rid ts with service := "api-service-2" } ∧
    completionEvent2 req status dur ts =
      { completionEvent1 req rid status dur ts with
          service := "api-service-2", requestId := none } :=
  ⟨rfl, rfl⟩

/-- Claim C4 (counterexample): the completion events of the two services
differ beyond the static service field — the one of api-service-1 carries the
correlation identifier, the one of api-service-2 does not — so the middleware is
not duplicated verbatim. -/
theorem middleware_not_verbatim :
    { completionEvent2 ⟨"GET", "/", "10.0.0.1", some "curl/8.0", some "abc123"⟩
        200 7 9 with service := "api-service-1" } ≠
      completionEvent1 ⟨"GET", "/", "10.0.0.1", some "curl/8.0", some "abc123"⟩
        "abc123" 200 7 9 := by
  decide

/-- Claim C1 (divergence witness): on a request to api-service-2 carrying
X-Request-ID abc123, the start event carries requestId abc123 but the
completion event carries no requestId field at all — the finish listener
(src/api-service-2/index.js lines 38-47) omits it, so the two events of
one request cannot be joined by correlationId in api-service-2, while
api-service-1 includes it in both events. -/
theorem service2_completion_missing_requestId :
    ((processRequest2 ⟨"GET", "/", "10.0.0.1", some "curl/8.0", some "abc123"⟩ 0
        (fun _ => 0) (.normal 200 none)).1.map LogEvent.requestId) =
      [some "abc123", none] ∧
    ((processRequest1 ⟨"GET", "/", "10.0.0.1", some "curl/8.0", some "abc123"⟩ 0
        (fun _ => 0) (.normal 200 none)).1.map LogEvent.requestId) =
      [some "abc123", some "abc123"] := by
  exact ⟨rfl, rfl⟩

/-- Claim C2 (amended): the inter-service call handlers are the only
code recording histogram observations; each records exactly one
observation on its success path, with labels ("GET", route template,
"200") matching the actual method, route and 200 response, and the
duration converted to seconds; the catch path completes the request with
status 500 and records no observation. -/
theorem histogram_observation_per_call (status : Nat) (data msg : String)
    (code : Option String) (clock : Nat → Int) :
    (testService2Handler (.ok status data) clock).1 =
      [{ method := "GET", route := "/test-service-2", statusCode := "200",
         seconds := ((clock 1 - clock 0 : Int) : Rat) / 1000 }] ∧
    (testService2Handler (.ok status data) clock).2.1 = 200 ∧
    (testService2Handler (.fail msg code) clock).1 = [] ∧
    (testService2Handler (.fail msg code) clock).2.1 = 500 ∧
    (testService1Handler (.ok status data) clock).1 =
      [{ method := "GET", route := "/test-service-1", statusCode := "200",
         seconds := ((clock 1 - clock 0 : Int) : Rat) / 1000 }] ∧
    (testService1Handler (.ok status data) clock).2.1 = 200 ∧
    (testService1Handler (.fail msg code) clock).1 = [] ∧
    (testService1Handler (.fail msg code) clock).2.1 = 500 := by
  exact ⟨rfl, rfl, rfl, rfl, rfl, rfl, rfl, rfl⟩

/-- Claim C2 (counterexample): a request to /test-service-2 whose axios
call is rejected completes with status 500 yet records zero histogram
observations, refuting the claim that every completed request records
exactly one latency observation. -/
theorem failed_call_records_no_observation :
    (testService2Handler (.fail "connect ECONNREFUSED" (some "ECONNREFUSED"))
        (fun _ => 0)).1 = [] ∧
    (testService2Handler (.fail "connect ECONNREFUSED" (some "ECONNREFUSED"))
        (fun _ => 0)).2.1 = 500 := by
  exact ⟨rfl, rfl⟩

/-- Claim C8: the overridden res.end forwards the chunk and encoding
arguments and the receiver (carrying the status code the handler set) to
the original end unchanged, and returns the return value of the original; the
final status of a request is exactly the one the handler produced. -/
theorem wrappedEnd_forwards {α : Type}
    (originalEnd : Nat → Option String → Option String → α) (req : Request)
    (rid : String) (statusCode : Nat) (start : Int) (clock : Nat → Int)
    (chunk encoding : Option String) (k : Nat) :
    (wrappedEnd originalEnd req rid statusCode start clock chunk encoding).2 =
      originalEnd statusCode chunk encoding ∧
    (processRequest1 req k clock (.normal statusCode chunk)).2 = statusCode :=
  ⟨rfl, rfl⟩
